import Mathlib

/-!
Shallow embedding of the ecommerce_app repository (src/crud.py, src/models.py,
src/routers/payments.py) for checking its specification.

Modelling conventions:
* Monetary amounts (`Decimal` with two decimal places in the source) are
  represented as integers counting minor currency units (cents).  All decimal
  arithmetic performed by the source (`price * quantity`, `+=`) is exact on
  two-decimal values, so integer-cent arithmetic is a faithful image.  The
  Stripe conversion `int(float(price) * 100)` is modelled bit-precisely
  (`pyCents`): one round-to-nearest-even binary64 rounding of `price`, one
  more for the product with the exactly representable `100.0`, then
  truncation toward zero — the round trip loses a cent for many prices
  (19.99 gives 1998).  The float is modelled with 53-bit precision and
  unbounded exponent, which coincides with binary64 on the whole normal
  range; beyond the overflow threshold Python raises OverflowError rather
  than returning a float, so no finite behavior is misrepresented.
* Stock counts and quantities are `Int`: the source uses Python ints with no
  lower bound enforced at the CRUD layer (`ProductUpdate.in_stock` and
  `ProductCreate.in_stock` carry no `ge=0` validator), so negative values are
  representable, exactly as in the code.
* The SQL session is an explicit `Store` value; every mutating CRUD helper is
  a function `Store → args → Store × result`.  The source commits its session
  exactly once per helper, at the end; a helper that raises does so before the
  first mutation, which the embedding mirrors by returning the input store
  unchanged together with the error.
* Timestamps (`created_at`, `updated_at`, `added_at`) are not modelled: no
  claim mentions them, and `get_cart_items`'s most-recently-added-first
  ordering is irrelevant to every claim (sums and row counts are
  order-insensitive), so cart items are kept in insertion order.
-/

namespace Shop

/-- `models.Product` (table): monetary `price` in cents, `in_stock : Int`
(Python int, no nonnegativity enforced), `rating` an optional rational
standing for the optional float. -/
structure Product where
  name : String
  description : Option String
  price : Int
  in_stock : Int
  category : Option String
  media_url : Option String
  rating : Option ℚ
  num_reviews : Option Int
  deriving DecidableEq

/-- `models.ProductCreate` (schema for `create_product`): `id`, `rating`,
`num_reviews` are not accepted; `price` defaults handled by the caller. -/
structure ProductCreate where
  name : String
  description : Option String
  price : Int
  in_stock : Int
  category : Option String
  media_url : Option String
  deriving DecidableEq

/-- `models.ProductUpdate` after `model_dump(exclude_unset=True)`: each field
is `none` when absent from the patch and `some v` when explicitly provided
with value `v` (for columns that are themselves nullable the provided value
is again an `Option`). -/
structure ProductUpdate where
  name : Option String := none
  description : Option (Option String) := none
  price : Option Int := none
  in_stock : Option Int := none
  category : Option (Option String) := none
  media_url : Option (Option String) := none
  rating : Option (Option ℚ) := none
  num_reviews : Option (Option Int) := none
  deriving DecidableEq

/-- `models.Order` (table) without the unmodelled `created_at`. -/
structure Order where
  user_id : Nat
  status : String
  total_price : Int
  payment_status : String
  stripe_payment_intent_id : Option String
  deriving DecidableEq

/-- `models.OrderItem` (table): `unit_price` is the snapshot taken at order
creation, in cents. -/
structure OrderItem where
  order_id : Nat
  product_id : Nat
  quantity : Int
  unit_price : Int
  deriving DecidableEq

/-- `models.OrderItemCreate` (one entry of `OrderCreate.items`). -/
structure OrderItemCreate where
  product_id : Nat
  quantity : Int
  deriving DecidableEq

/-- `models.CartItem` (table) without the unmodelled `added_at`; `id` is the
primary key assigned by the database. -/
structure CartItem where
  id : Nat
  cart_id : Nat
  product_id : Nat
  quantity : Int
  deriving DecidableEq

/-- `models.CartItemCreate` (schema for `add_to_cart`). -/
structure CartItemCreate where
  product_id : Nat
  quantity : Int
  deriving DecidableEq

/-- The persistent state seen by `crud.py`: product and order tables keyed by
primary key, the order-item and cart-item tables as row lists, and the
database's id sequences for orders and cart items. -/
@[ext]
structure Store where
  products : Nat → Option Product
  orders : Nat → Option Order
  next_order_id : Nat
  orderItems : List OrderItem
  cartItems : List CartItem
  next_cart_item_id : Nat

/-- Errors raised by the checkout helpers (`ValueError` messages in
`crud.create_order` / `crud.cart_to_order` / `crud.add_to_cart`), carrying
the data the message interpolates. -/
inductive CheckoutError where
  | productNotFound (product_id : Nat)
  | insufficientStock (name : String) (available requested : Int)
  | cartEmpty
  deriving DecidableEq

/-- `crud.get_product`: `session.get(Product, product_id)`. -/
def get_product (s : Store) (product_id : Nat) : Option Product :=
  s.products product_id

/-- Writing one row of the product table (the effect of mutating a fetched
`Product` instance and committing). -/
def setProduct (s : Store) (pid : Nat) (p : Product) : Store :=
  { s with products := fun n => if n = pid then some p else s.products n }

/-- Writing one row of the order table. -/
def setOrder (s : Store) (oid : Nat) (o : Order) : Store :=
  { s with orders := fun n => if n = oid then some o else s.orders n }

/-- `crud.create_product`: inserts a row built from the schema (the id is
chosen by the database; the model takes an explicit fresh id so that the
insert is total). `rating` and `num_reviews` start as NULL. -/
def create_product (s : Store) (pid : Nat) (inp : ProductCreate) : Store :=
  setProduct s pid
    { name := inp.name, description := inp.description, price := inp.price,
      in_stock := inp.in_stock, category := inp.category,
      media_url := inp.media_url, rating := none, num_reviews := none }

/-- The attribute merge in `crud.update_product`: `setattr` for every field
present in `model_dump(exclude_unset=True)`. -/
def applyUpdate (p : Product) (u : ProductUpdate) : Product :=
  { name := u.name.getD p.name
    description := u.description.getD p.description
    price := u.price.getD p.price
    in_stock := u.in_stock.getD p.in_stock
    category := u.category.getD p.category
    media_url := u.media_url.getD p.media_url
    rating := u.rating.getD p.rating
    num_reviews := u.num_reviews.getD p.num_reviews }

/-- `crud.update_product`: fetch, merge only provided fields, commit; `None`
and no change when the id is absent. -/
def update_product (s : Store) (pid : Nat) (u : ProductUpdate) :
    Store × Option Product :=
  match s.products pid with
  | none => (s, none)
  | some p =>
      let p2 := applyUpdate p u
      (setProduct s pid p2, some p2)

/-- `crud.delete_product`: delete the row, report whether it existed. -/
def delete_product (s : Store) (pid : Nat) : Store × Bool :=
  match s.products pid with
  | none => (s, false)
  | some _ =>
      ({ s with products := fun n => if n = pid then none else s.products n },
       true)

/-- The read-only validation pass shared by `crud.create_order` and
`crud.cart_to_order` (first `for` loop): looks every item's product up,
raises on a missing product or on `in_stock < quantity`, and accumulates
`total_price += product.price * quantity`. -/
def validate_items (s : Store) : List OrderItemCreate → Except CheckoutError Int
  | [] => Except.ok 0
  | it :: rest =>
      match s.products it.product_id with
      | none => Except.error (CheckoutError.productNotFound it.product_id)
      | some p =>
          if p.in_stock < it.quantity then
            Except.error
              (CheckoutError.insufficientStock p.name p.in_stock it.quantity)
          else
            match validate_items s rest with
            | Except.error e => Except.error e
            | Except.ok t => Except.ok (p.price * it.quantity + t)

/-- One iteration of the mutation loop shared by `crud.create_order` and
`crud.cart_to_order`, for an item whose product `p` was re-fetched: insert an
`OrderItem` snapshotting `product.price` and decrement the product's stock
by the requested quantity. -/
def orderStep (oid : Nat) (s : Store) (it : OrderItemCreate) (p : Product) :
    Store :=
  { s with
    products := fun n => if n = it.product_id then
        some { p with in_stock := p.in_stock - it.quantity }
      else s.products n,
    orderItems := s.orderItems ++
      [{ order_id := oid, product_id := it.product_id,
         quantity := it.quantity, unit_price := p.price }] }

/-- The mutation pass shared by `crud.create_order` and `crud.cart_to_order`
(second `for` loop): for each item, re-fetch the product and run
`orderStep`.  The source dereferences the re-fetched product
unconditionally; after a successful validation pass the product is present,
so the model skips an absent product (that branch is unreachable in any run
of the source). -/
def apply_items (oid : Nat) : Store → List OrderItemCreate → Store
  | s, [] => s
  | s, it :: rest =>
      match s.products it.product_id with
      | none => apply_items oid s rest
      | some p => apply_items oid (orderStep oid s it p) rest

/-- Inserting the fresh `Order` row (`session.add(order); session.flush()`):
status `pending`, payment status `pending`, the computed total, no payment
reference; the id comes from the database sequence. -/
def insertOrder (s : Store) (user_id : Nat) (total : Int) : Store :=
  { s with
    orders := fun n => if n = s.next_order_id then
        some { user_id := user_id, status := "pending",
               total_price := total, payment_status := "pending",
               stripe_payment_intent_id := none }
      else s.orders n,
    next_order_id := s.next_order_id + 1 }

/-- `crud.create_order`: validate every item (no mutation yet); then insert
the `Order` row, obtaining its id via `flush`; then run the mutation pass;
commit.  A raised error leaves the session unchanged. -/
def create_order (s : Store) (user_id : Nat) (items : List OrderItemCreate) :
    Store × Except CheckoutError Nat :=
  match validate_items s items with
  | Except.error e => (s, Except.error e)
  | Except.ok total =>
      (apply_items s.next_order_id (insertOrder s user_id total) items,
       Except.ok s.next_order_id)

/-- `crud.get_order`. -/
def get_order (s : Store) (oid : Nat) : Option Order :=
  s.orders oid

/-- `crud.get_order_items`: all rows with this `order_id`. -/
def get_order_items (s : Store) (oid : Nat) : List OrderItem :=
  s.orderItems.filter fun i => i.order_id = oid

/-- Python truthiness of the optional reference argument in
`update_order_payment_status` (`if stripe_payment_intent_id:`): `None` and
the empty string are falsy. -/
def refTruthy : Option String → Bool
  | none => false
  | some r => !(r = "")

/-- The field updates `crud.update_order_payment_status` performs on a
fetched order: set the payment status; store the reference only when truthy
(`if stripe_payment_intent_id:`); derive the fulfillment status (`paid ⇒
confirmed`, `failed ⇒ cancelled`, otherwise untouched). -/
def paymentTransition (o : Order) (ps : String) (ref : Option String) :
    Order :=
  let o1 := { o with payment_status := ps }
  let o2 := match ref with
    | some r => if r = "" then o1
        else { o1 with stripe_payment_intent_id := some r }
    | none => o1
  if ps = "paid" then { o2 with status := "confirmed" }
  else if ps = "failed" then { o2 with status := "cancelled" }
  else o2

/-- `crud.update_order_payment_status`: fetch the order, apply
`paymentTransition`, commit; `None` and no change when the id is absent. -/
def update_order_payment_status (s : Store) (oid : Nat) (ps : String)
    (ref : Option String) : Store × Option Order :=
  match s.orders oid with
  | none => (s, none)
  | some o =>
      (setOrder s oid (paymentTransition o ps ref),
       some (paymentTransition o ps ref))

/-- `crud.get_cart_items`: all rows with this `cart_id` (the source orders
them most-recently-added first; ordering is irrelevant to every claim and is
not modelled). -/
def get_cart_items (s : Store) (cid : Nat) : List CartItem :=
  s.cartItems.filter fun c => c.cart_id = cid

/-- `crud.add_to_cart`: raise if the product is absent; if a row for
`(cart_id, product_id)` already exists increment its quantity (the row is
updated through its primary key), otherwise insert a new row with a fresh
id.  Returns the affected row. -/
def add_to_cart (s : Store) (cid : Nat) (item : CartItemCreate) :
    Store × Except CheckoutError CartItem :=
  match s.products item.product_id with
  | none => (s, Except.error (CheckoutError.productNotFound item.product_id))
  | some _ =>
      match s.cartItems.find? fun c =>
          c.cart_id = cid && c.product_id = item.product_id with
      | some ex =>
          let ex2 := { ex with quantity := ex.quantity + item.quantity }
          ({ s with cartItems := s.cartItems.map (fun c =>
              if c.id = ex.id then { c with quantity := c.quantity + item.quantity }
              else c) },
           Except.ok ex2)
      | none =>
          let row : CartItem :=
            { id := s.next_cart_item_id, cart_id := cid,
              product_id := item.product_id, quantity := item.quantity }
          ({ s with cartItems := s.cartItems ++ [row],
                    next_cart_item_id := s.next_cart_item_id + 1 },
           Except.ok row)

/-- `crud.update_cart_item`: replace the row's quantity; `None` if absent. -/
def update_cart_item (s : Store) (ciid : Nat) (q : Int) :
    Store × Option CartItem :=
  match s.cartItems.find? fun c => c.id = ciid with
  | none => (s, none)
  | some ex =>
      ({ s with cartItems := s.cartItems.map (fun c =>
          if c.id = ciid then { c with quantity := q } else c) },
       some { ex with quantity := q })

/-- `crud.remove_from_cart`: delete the row, report whether it existed. -/
def remove_from_cart (s : Store) (ciid : Nat) : Store × Bool :=
  match s.cartItems.find? fun c => c.id = ciid with
  | none => (s, false)
  | some _ =>
      ({ s with cartItems := s.cartItems.filter (fun c => !(c.id = ciid)) },
       true)

/-- `crud.clear_cart`: delete every row of this cart; always succeeds. -/
def clear_cart (s : Store) (cid : Nat) : Store :=
  { s with cartItems := s.cartItems.filter (fun c => !(c.cart_id = cid)) }

/-- The cart items viewed as checkout requests (the pairs `cart_to_order`
feeds through the shared algorithm). -/
def cartItemsToOrderItems (items : List CartItem) : List OrderItemCreate :=
  items.map fun c => { product_id := c.product_id, quantity := c.quantity }

/-- `crud.cart_to_order`: raise `Cart is empty` on an empty cart; otherwise
run the shared validate / insert-order / mutate passes on the cart's items
and clear the cart before committing. -/
def cart_to_order (s : Store) (user_id cid : Nat) :
    Store × Except CheckoutError Nat :=
  let citems := get_cart_items s cid
  if citems.isEmpty then (s, Except.error CheckoutError.cartEmpty)
  else
    let items := cartItemsToOrderItems citems
    match validate_items s items with
    | Except.error e => (s, Except.error e)
    | Except.ok total =>
        (clear_cart
          (apply_items s.next_order_id (insertOrder s user_id total) items) cid,
         Except.ok s.next_order_id)

/-- One Stripe line item as assembled by
`routers/payments.create_checkout_session` (`unit_amount` in cents). -/
structure StripeLineItem where
  name : String
  description : String
  unit_amount : Int
  quantity : Int
  deriving DecidableEq

/-- The failure modes of `create_checkout_session` before the external call
(HTTP 404 / 403 / 400 responses). -/
inductive SessionError where
  | orderNotFound
  | forbidden
  | alreadyPaid
  | noItems
  deriving DecidableEq

/-- Round-half-even of the fraction `a / b` (`b > 0`) to the nearest
integer, as IEEE-754 round-to-nearest requires on the scaled mantissa. -/
def rhe (a b : Nat) : Nat :=
  let q := a / b
  let r := a % b
  if 2 * r < b then q
  else if b < 2 * r then q + 1
  else if q % 2 = 0 then q else q + 1

/-- `⌊log₂ n⌋` by fuelled halving (fuel 1100 exceeds the binary64 exponent
range, so it never runs out below the float overflow threshold). -/
def log2Fuel : Nat → Nat → Nat
  | 0, _ => 0
  | fuel + 1, n => if n ≤ 1 then 0 else log2Fuel fuel (n / 2) + 1

def natLog2 (n : Nat) : Nat := log2Fuel 1100 n

/-- Does `2 ^ e ≤ a / b` hold (`a`, `b` > 0)? -/
def pow2le (e : Int) (a b : Nat) : Bool :=
  if 0 ≤ e then decide (b * 2 ^ e.toNat ≤ a)
  else decide (b ≤ a * 2 ^ (-e).toNat)

/-- `⌊log₂ (a / b)⌋` for positive `a`, `b`. -/
def floorLog2 (a b : Nat) : Int :=
  let e0 : Int := (natLog2 a : Int) - (natLog2 b : Int)
  if pow2le (e0 + 1) a b then e0 + 1
  else if pow2le e0 a b then e0
  else e0 - 1

/-- The binary float nearest to the positive fraction `a / b`
(round-to-nearest, ties-to-even) as a mantissa–exponent pair `(m, E)` with
value `m·2^E`: 53-bit precision and unbounded exponent, which is exactly
binary64 throughout the normal range. -/
def round53 (a b : Nat) : Nat × Int :=
  let e1 : Int := floorLog2 a b
  let shift : Int := 52 - e1
  let m := if 0 ≤ shift then rhe (a * 2 ^ shift.toNat) b
    else rhe a (b * 2 ^ (-shift).toNat)
  (m, e1 - 52)

/-- `int(float(price) * 100)` for a nonnegative price of `c` cents:
`float(Decimal)` is the correctly rounded binary64 of `c / 100`; the
multiplication by the exactly representable `100.0` rounds once more
(`100 * mantissa` is the exact product, re-rounded to 53 bits); `int`
truncates toward zero. -/
def pyCentsNat (c : Nat) : Nat :=
  if c = 0 then 0
  else
    let r1 := round53 c 100
    let r2 := round53 (100 * r1.1) 1
    let e : Int := r1.2 + r2.2
    if 0 ≤ e then r2.1 * 2 ^ e.toNat else r2.1 / 2 ^ (-e).toNat

/-- The cents conversion of `routers/payments.py` line 78,
`int(float(product.price) * 100)`, for a price of `c` cents of either sign
(Python's `float` rounding and `int` truncation are both symmetric).  The
round trip loses a cent for many prices: `pyCents 1999 = 1998`. -/
def pyCents (c : Int) : Int :=
  if c < 0 then -(pyCentsNat (-c).toNat) else pyCentsNat c.toNat

/-- The line-item list built by `create_checkout_session`: one entry per
`OrderItem` of the order **whose product still exists** (a missing product is
skipped with `continue`), with the product's *current* catalog price put
through the float cents conversion as `unit_amount`, and the item's
quantity. -/
def build_line_items (s : Store) (oid : Nat) : List StripeLineItem :=
  (get_order_items s oid).foldr
    (fun item acc =>
      match s.products item.product_id with
      | none => acc
      | some p =>
          { name := p.name, description := p.description.getD "",
            unit_amount := pyCents p.price, quantity := item.quantity } :: acc)
    []

/-- `routers/payments.create_checkout_session` up to the external Stripe
call: not-found / ownership / already-paid checks, then the line items, then
the empty-line-items check.  The session creation and the subsequent
`update_order_payment_status(pending, reference)` call are the external
gateway's side and are outside the modelled state transition. -/
def create_checkout_session (s : Store) (current_user oid : Nat) :
    Except SessionError (List StripeLineItem) :=
  match s.orders oid with
  | none => Except.error SessionError.orderNotFound
  | some o =>
      if o.user_id ≠ current_user then Except.error SessionError.forbidden
      else if o.payment_status = "paid" then Except.error SessionError.alreadyPaid
      else
        let li := build_line_items s oid
        if li.isEmpty then Except.error SessionError.noItems
        else Except.ok li

/-- A checkout request: either an explicit item list (`POST /orders`, served
by `create_order`) or the caller's cart (`POST /orders/checkout`, served by
`cart_to_order`). -/
inductive CheckoutReq where
  | explicitItems (items : List OrderItemCreate)
  | fromCart (cid : Nat)

/-- The two checkout entry points behind one dispatcher. -/
def checkout (s : Store) (uid : Nat) :
    CheckoutReq → Store × Except CheckoutError Nat
  | CheckoutReq.explicitItems items => create_order s uid items
  | CheckoutReq.fromCart cid => cart_to_order s uid cid

/-- The (product, quantity) pairs a checkout request asks for. -/
def requestedItems (s : Store) : CheckoutReq → List OrderItemCreate
  | CheckoutReq.explicitItems items => items
  | CheckoutReq.fromCart cid => cartItemsToOrderItems (get_cart_items s cid)

/-- The state-mutating operations the application exposes (product
create/update/delete, both checkout paths, the cart operations, and the
payment-status transition driven by the Stripe webhook handler). -/
inductive Op where
  | opCreateProduct (pid : Nat) (inp : ProductCreate)
  | opUpdateProduct (pid : Nat) (u : ProductUpdate)
  | opDeleteProduct (pid : Nat)
  | opCheckout (uid : Nat) (req : CheckoutReq)
  | opAddToCart (cid : Nat) (item : CartItemCreate)
  | opUpdateCartItem (ciid : Nat) (q : Int)
  | opRemoveFromCart (ciid : Nat)
  | opClearCart (cid : Nat)
  | opSetPaymentStatus (oid : Nat) (ps : String) (ref : Option String)

/-- The state transition of one operation (discarding the returned value). -/
def step (s : Store) : Op → Store
  | Op.opCreateProduct pid inp => create_product s pid inp
  | Op.opUpdateProduct pid u => (update_product s pid u).1
  | Op.opDeleteProduct pid => (delete_product s pid).1
  | Op.opCheckout uid req => (checkout s uid req).1
  | Op.opAddToCart cid item => (add_to_cart s cid item).1
  | Op.opUpdateCartItem ciid q => (update_cart_item s ciid q).1
  | Op.opRemoveFromCart ciid => (remove_from_cart s ciid).1
  | Op.opClearCart cid => clear_cart s cid
  | Op.opSetPaymentStatus oid ps ref =>
      (update_order_payment_status s oid ps ref).1

/-- Every product row has a nonnegative stock count. -/
def StockNonneg (s : Store) : Prop :=
  ∀ pid p, s.products pid = some p → 0 ≤ p.in_stock

/-- At most one `CartItem` row per (cart, product) pair. -/
def CartUnique (s : Store) : Prop :=
  s.cartItems.Pairwise fun a b =>
    ¬(a.cart_id = b.cart_id ∧ a.product_id = b.product_id)

/-- The side conditions under which an operation cannot drive stock
negative: admin create/update must supply a nonnegative stock value, and an
explicit order request must not list the same product twice (a cart request
gets this for free from `CartUnique`). -/
def OpSafe : Op → Prop
  | Op.opCreateProduct _ inp => 0 ≤ inp.in_stock
  | Op.opUpdateProduct _ u => ∀ v, u.in_stock = some v → 0 ≤ v
  | Op.opCheckout _ (CheckoutReq.explicitItems items) =>
      items.Pairwise fun a b => a.product_id ≠ b.product_id
  | _ => True

/-- A product with its stock forgotten: the part of the row a checkout must
not touch. -/
def eraseStock (p : Product) : Product := { p with in_stock := 0 }

/-- The unit price the mutation pass snapshots for a product id (0 for an
absent product; only used where the product is present). -/
def priceOf (s : Store) (pid : Nat) : Int :=
  match s.products pid with
  | none => 0
  | some p => p.price

/-- Σ (unit price at `s` × quantity) over a request list. -/
def itemsTotal (s : Store) (items : List OrderItemCreate) : Int :=
  (items.map (fun it => priceOf s it.product_id * it.quantity)).sum

/-- Every requested product exists and has stock at least the requested
quantity. -/
def AllAvailable (s : Store) (items : List OrderItemCreate) : Prop :=
  ∀ it ∈ items, ∃ p, s.products it.product_id = some p ∧
    ¬ p.in_stock < it.quantity

/-- An empty database. -/
def emptyStore : Store :=
  { products := fun _ => none, orders := fun _ => none, next_order_id := 1,
    orderItems := [], cartItems := [], next_cart_item_id := 1 }

/-- Example product "A": price 10.00 (1000 cents), 5 in stock (the spec's
scenario product). -/
def productA : Product :=
  { name := "A", description := none, price := 1000, in_stock := 5,
    category := none, media_url := none, rating := none, num_reviews := none }

/-- The creation schema for `productA`. -/
def productACreate : ProductCreate :=
  { name := "A", description := none, price := 1000, in_stock := 5,
    category := none, media_url := none }

/-- Example store: product "A" under id 1, and user 7's cart (cart id 1)
holding 3 × A; no orders yet. -/
def exStore : Store :=
  { products := fun n => if n = 1 then some productA else none,
    orders := fun _ => none, next_order_id := 1,
    orderItems := [], cartItems := [⟨0, 1, 1, 3⟩], next_cart_item_id := 1 }

/-- Example store for the payment-session claims: order 1 (user 7, payment
pending, total 20.00) holds one line of 2 × product 1 snapshotted at 10.00
per unit, but product 1's current catalog price has since risen to 15.00;
order 2 (user 7, payment pending) holds one line of 1 × product 99, and
product 99 has since been deleted from the catalog; order 3 (user 7,
payment pending) holds one line of 1 × product 3, whose price 19.99 is kept
at its catalog value — a price whose float cents conversion truncates. -/
def exStorePriceDrift : Store :=
  { products := fun n => if n = 1 then
        some { productA with price := 1500 }
      else if n = 3 then
        some { productA with name := "B", price := 1999 }
      else none,
    orders := fun n => if n = 1 then
        some { user_id := 7, status := "pending", total_price := 2000,
               payment_status := "pending", stripe_payment_intent_id := none }
      else if n = 2 then
        some { user_id := 7, status := "pending", total_price := 1000,
               payment_status := "pending", stripe_payment_intent_id := none }
      else if n = 3 then
        some { user_id := 7, status := "pending", total_price := 1999,
               payment_status := "pending", stripe_payment_intent_id := none }
      else none,
    next_order_id := 4,
    orderItems := [⟨1, 1, 2, 1000⟩, ⟨2, 99, 1, 1000⟩, ⟨3, 3, 1, 1999⟩],
    cartItems := [], next_cart_item_id := 1 }

theorem setProduct_products_self (s : Store) (pid : Nat) (p : Product) :
    (setProduct s pid p).products pid = some p := by
  simp [setProduct]

theorem setProduct_products_ne (s : Store) (pid : Nat) (p : Product)
    (n : Nat) (h : n ≠ pid) : (setProduct s pid p).products n = s.products n := by
  simp [setProduct, h]

theorem validate_items_ok (s : Store) (items : List OrderItemCreate)
    (h : AllAvailable s items) :
    validate_items s items = Except.ok (itemsTotal s items) := by
  induction items with
  | nil => simp [validate_items, itemsTotal]
  | cons it rest ih =>
      obtain ⟨p, hp, hq⟩ := h it (by simp)
      have hrest : AllAvailable s rest := fun x hx => h x (by simp [hx])
      simp [validate_items, hp, hq, ih hrest, itemsTotal, priceOf]

/-- The validation pass fails when some requested product is absent or
under-stocked, and the error it raises carries a violating item's data. -/
theorem validate_items_error (s : Store) (items : List OrderItemCreate)
    (h : ∃ it ∈ items, s.products it.product_id = none ∨
      ∃ p, s.products it.product_id = some p ∧ p.in_stock < it.quantity) :
    ∃ e, validate_items s items = Except.error e ∧
      ((∃ it ∈ items, s.products it.product_id = none ∧
          e = CheckoutError.productNotFound it.product_id) ∨
       (∃ it ∈ items, ∃ p, s.products it.product_id = some p ∧
          p.in_stock < it.quantity ∧
          e = CheckoutError.insufficientStock p.name p.in_stock it.quantity)) := by
  induction items with
  | nil => simp at h
  | cons it rest ih =>
      cases hsp : s.products it.product_id with
      | none =>
          refine ⟨CheckoutError.productNotFound it.product_id, ?_, ?_⟩
          · simp [validate_items, hsp]
          · exact Or.inl ⟨it, by simp, hsp, rfl⟩
      | some p =>
          by_cases hq : p.in_stock < it.quantity
          · refine ⟨CheckoutError.insufficientStock p.name p.in_stock it.quantity,
              ?_, ?_⟩
            · simp [validate_items, hsp, hq]
            · exact Or.inr ⟨it, by simp, p, hsp, hq, rfl⟩
          · have hrest : ∃ x ∈ rest, s.products x.product_id = none ∨
                ∃ q, s.products x.product_id = some q ∧ q.in_stock < x.quantity := by
              obtain ⟨x, hx, hbad⟩ := h
              rcases List.mem_cons.mp hx with rfl | hx'
              · rcases hbad with hnone | ⟨q, hq', hlt⟩
                · rw [hsp] at hnone; exact absurd hnone (by simp)
                · rw [hsp] at hq'
                  cases hq'
                  exact absurd hlt hq
              · exact ⟨x, hx', hbad⟩
            obtain ⟨e, he, hcase⟩ := ih hrest
            refine ⟨e, ?_, ?_⟩
            · simp [validate_items, hsp, hq, he]
            · rcases hcase with ⟨x, hx, h1, h2⟩ | ⟨x, hx, q, h1, h2, h3⟩
              · exact Or.inl ⟨x, by simp [hx], h1, h2⟩
              · exact Or.inr ⟨x, by simp [hx], q, h1, h2, h3⟩

theorem orderStep_products_self (oid : Nat) (s : Store) (it : OrderItemCreate)
    (p : Product) :
    (orderStep oid s it p).products it.product_id =
      some { p with in_stock := p.in_stock - it.quantity } := by
  simp [orderStep]

theorem orderStep_products_ne (oid : Nat) (s : Store) (it : OrderItemCreate)
    (p : Product) (n : Nat) (h : n ≠ it.product_id) :
    (orderStep oid s it p).products n = s.products n := by
  simp [orderStep, h]

theorem orderStep_priceOf (oid : Nat) (s : Store) (it : OrderItemCreate)
    (p : Product) (hsp : s.products it.product_id = some p) (n : Nat) :
    priceOf (orderStep oid s it p) n = priceOf s n := by
  unfold priceOf
  by_cases h : n = it.product_id
  · subst h
    simp [orderStep, hsp]
  · rw [orderStep_products_ne _ _ _ _ _ h]

theorem apply_items_orders (oid : Nat) (s : Store)
    (items : List OrderItemCreate) :
    (apply_items oid s items).orders = s.orders := by
  induction items generalizing s with
  | nil => rfl
  | cons it rest ih =>
      cases hsp : s.products it.product_id with
      | none => simp [apply_items, hsp, ih]
      | some p => simpa [apply_items, hsp] using ih (orderStep oid s it p)

theorem apply_items_next_order_id (oid : Nat) (s : Store)
    (items : List OrderItemCreate) :
    (apply_items oid s items).next_order_id = s.next_order_id := by
  induction items generalizing s with
  | nil => rfl
  | cons it rest ih =>
      cases hsp : s.products it.product_id with
      | none => simp [apply_items, hsp, ih]
      | some p => simpa [apply_items, hsp] using ih (orderStep oid s it p)

theorem apply_items_cartItems (oid : Nat) (s : Store)
    (items : List OrderItemCreate) :
    (apply_items oid s items).cartItems = s.cartItems := by
  induction items generalizing s with
  | nil => rfl
  | cons it rest ih =>
      cases hsp : s.products it.product_id with
      | none => simp [apply_items, hsp, ih]
      | some p => simpa [apply_items, hsp] using ih (orderStep oid s it p)

/-- The mutation pass only ever touches the stock field of a product row:
the stock-erased view of the whole product table is invariant. -/
theorem apply_items_eraseStock (oid : Nat) (s : Store)
    (items : List OrderItemCreate) (pid : Nat) :
    ((apply_items oid s items).products pid).map eraseStock =
      (s.products pid).map eraseStock := by
  induction items generalizing s with
  | nil => rfl
  | cons it rest ih =>
      cases hsp : s.products it.product_id with
      | none => simp [apply_items, hsp, ih]
      | some p =>
          simp only [apply_items, hsp]
          rw [ih]
          by_cases hpid : pid = it.product_id
          · subst hpid
            simp [orderStep, hsp, eraseStock]
          · rw [orderStep_products_ne _ _ _ _ _ hpid]

/-- Products not referenced by the request are completely untouched by the
mutation pass. -/
theorem apply_items_not_mem (oid : Nat) (s : Store)
    (items : List OrderItemCreate) (pid : Nat)
    (h : pid ∉ items.map (fun it => it.product_id)) :
    (apply_items oid s items).products pid = s.products pid := by
  induction items generalizing s with
  | nil => rfl
  | cons it rest ih =>
      simp only [List.map_cons, List.mem_cons, not_or] at h
      cases hsp : s.products it.product_id with
      | none => simpa [apply_items, hsp] using ih s h.2
      | some p =>
          simp only [apply_items, hsp]
          rw [ih _ h.2]
          exact orderStep_products_ne _ _ _ _ _ h.1

/-- Prices never change along the mutation pass. -/
theorem apply_items_priceOf (oid : Nat) (s : Store)
    (items : List OrderItemCreate) (pid : Nat) :
    priceOf (apply_items oid s items) pid = priceOf s pid := by
  have h := apply_items_eraseStock oid s items pid
  unfold priceOf
  cases h1 : (apply_items oid s items).products pid with
  | none =>
      rw [h1] at h
      cases h2 : s.products pid with
      | none => rfl
      | some q => rw [h2] at h; simp at h
  | some q =>
      rw [h1] at h
      cases h2 : s.products pid with
      | none => rw [h2] at h; simp at h
      | some r =>
          rw [h2] at h
          have h' : eraseStock q = eraseStock r := by simpa using h
          have : q.price = r.price := by
            simpa [eraseStock] using congrArg Product.price h'
          simp [this]

/-- The order items inserted by the mutation pass: one per request entry, in
order, snapshotting the pre-pass unit price. -/
theorem apply_items_orderItems (oid : Nat) (s : Store)
    (items : List OrderItemCreate)
    (h : ∀ it ∈ items, (s.products it.product_id).isSome) :
    (apply_items oid s items).orderItems = s.orderItems ++
      items.map (fun it =>
        { order_id := oid, product_id := it.product_id,
          quantity := it.quantity,
          unit_price := priceOf s it.product_id : OrderItem }) := by
  induction items generalizing s with
  | nil => simp [apply_items]
  | cons it rest ih =>
      cases hsp : s.products it.product_id with
      | none =>
          have := h it (by simp)
          rw [hsp] at this
          simp at this
      | some p =>
          simp only [apply_items, hsp]
          have hrest : ∀ x ∈ rest,
              ((orderStep oid s it p).products x.product_id).isSome := by
            intro x hx
            by_cases hpx : x.product_id = it.product_id
            · rw [hpx, orderStep_products_self]; rfl
            · rw [orderStep_products_ne _ _ _ _ _ hpx]
              exact h x (by simp [hx])
          rw [ih _ hrest]
          rw [List.map_congr_left
            (fun x hx => by
              rw [show priceOf (orderStep oid s it p) x.product_id =
                priceOf s x.product_id from orderStep_priceOf _ _ _ _ hsp _])]
          have hstep : (orderStep oid s it p).orderItems = s.orderItems ++
              [{ order_id := oid, product_id := it.product_id,
                 quantity := it.quantity, unit_price := p.price }] := rfl
          rw [hstep]
          simp [priceOf, hsp]

/-- With pairwise-distinct product ids, each requested product's final row is
its initial row with the stock decremented by exactly the requested
quantity. -/
theorem apply_items_stock (oid : Nat) (s : Store)
    (items : List OrderItemCreate)
    (hnd : items.Pairwise (fun a b => a.product_id ≠ b.product_id)) :
    ∀ it ∈ items, ∀ p, s.products it.product_id = some p →
      (apply_items oid s items).products it.product_id =
        some { p with in_stock := p.in_stock - it.quantity } := by
  induction items generalizing s with
  | nil => intro it h; simp at h
  | cons hd rest ih =>
      intro it hit p hp
      have hnd' := List.pairwise_cons.mp hnd
      rcases List.mem_cons.mp hit with rfl | hit'
      · have heq : apply_items oid s (it :: rest) =
            apply_items oid (orderStep oid s it p) rest := by
          simp [apply_items, hp]
        rw [heq, apply_items_not_mem]
        · exact orderStep_products_self _ _ _ _
        · intro hmem
          obtain ⟨x, hx, hxe⟩ := List.mem_map.mp hmem
          exact hnd'.1 x hx hxe.symm
      · cases hsp : s.products hd.product_id with
        | none =>
            have heq : apply_items oid s (hd :: rest) = apply_items oid s rest := by
              simp [apply_items, hsp]
            rw [heq]
            exact ih s hnd'.2 it hit' p hp
        | some q =>
            have hne : it.product_id ≠ hd.product_id :=
              fun he => hnd'.1 it hit' he.symm
            have heq : apply_items oid s (hd :: rest) =
                apply_items oid (orderStep oid s hd q) rest := by
              simp [apply_items, hsp]
            have hp2 : (orderStep oid s hd q).products it.product_id = some p := by
              rw [orderStep_products_ne _ _ _ _ _ hne]
              exact hp
            rw [heq]
            exact ih (orderStep oid s hd q) hnd'.2 it hit' p hp2

theorem setOrder_orders_self (s : Store) (oid : Nat) (o : Order) :
    (setOrder s oid o).orders oid = some o := by
  simp [setOrder]

theorem setOrder_collapse (s : Store) (oid : Nat) (o o2 : Order) :
    setOrder (setOrder s oid o) oid o2 = setOrder s oid o2 := by
  unfold setOrder
  ext n
  all_goals simp only []
  by_cases h : n = oid <;> simp [h]

/-- A successful validation pass certifies availability of every item. -/
theorem validate_items_avail (s : Store) (items : List OrderItemCreate)
    (t : Int) (h : validate_items s items = Except.ok t) :
    AllAvailable s items := by
  induction items generalizing t with
  | nil => intro it hit; simp at hit
  | cons it rest ih =>
      intro x hx
      cases hsp : s.products it.product_id with
      | none =>
          simp only [validate_items, hsp] at h
          exact absurd h (by simp)
      | some p =>
          simp only [validate_items, hsp] at h
          by_cases hq : p.in_stock < it.quantity
          · rw [if_pos hq] at h; exact absurd h (by simp)
          · rw [if_neg hq] at h
            cases hv : validate_items s rest with
            | error e => rw [hv] at h; exact absurd h (by simp)
            | ok t2 =>
                rcases List.mem_cons.mp hx with rfl | hx'
                · exact ⟨p, hsp, hq⟩
                · exact ih t2 hv x hx'

/-- Destructuring a successful `create_order` run. -/
theorem create_order_ok_elim (s : Store) (uid oid : Nat)
    (items : List OrderItemCreate)
    (h : (create_order s uid items).2 = Except.ok oid) :
    oid = s.next_order_id ∧
    ∃ total, validate_items s items = Except.ok total ∧
      (create_order s uid items).1 =
        apply_items s.next_order_id (insertOrder s uid total) items := by
  cases hv : validate_items s items with
  | error e =>
      rw [create_order, hv] at h
      exact absurd h (by simp)
  | ok t =>
      rw [create_order, hv] at h
      simp only [Except.ok.injEq] at h
      exact ⟨h.symm, t, rfl, by rw [create_order, hv]⟩

/-- `cart_to_order` on a nonempty cart runs the shared algorithm. -/
theorem cart_to_order_eq_nonempty (s : Store) (uid cid : Nat)
    (he : get_cart_items s cid ≠ []) :
    cart_to_order s uid cid =
      match validate_items s (cartItemsToOrderItems (get_cart_items s cid)) with
      | Except.error e => (s, Except.error e)
      | Except.ok total =>
          (clear_cart (apply_items s.next_order_id (insertOrder s uid total)
            (cartItemsToOrderItems (get_cart_items s cid))) cid,
           Except.ok s.next_order_id) := by
  have hbe : (get_cart_items s cid).isEmpty = false := by
    cases hgc : get_cart_items s cid with
    | nil => exact absurd hgc he
    | cons a l => rfl
  simp only [cart_to_order, hbe, Bool.false_eq_true, if_false]

/-- Destructuring a successful `cart_to_order` run. -/
theorem cart_to_order_ok_elim (s : Store) (uid cid oid : Nat)
    (h : (cart_to_order s uid cid).2 = Except.ok oid) :
    oid = s.next_order_id ∧ get_cart_items s cid ≠ [] ∧
    ∃ total, validate_items s
        (cartItemsToOrderItems (get_cart_items s cid)) = Except.ok total ∧
      (cart_to_order s uid cid).1 =
        clear_cart (apply_items s.next_order_id (insertOrder s uid total)
          (cartItemsToOrderItems (get_cart_items s cid))) cid := by
  have he : get_cart_items s cid ≠ [] := by
    intro hgc
    rw [cart_to_order] at h
    simp [hgc] at h
  rw [cart_to_order_eq_nonempty s uid cid he] at h
  cases hv : validate_items s
      (cartItemsToOrderItems (get_cart_items s cid)) with
  | error e => rw [hv] at h; exact absurd h (by simp)
  | ok t =>
      rw [hv] at h
      simp only [Except.ok.injEq] at h
      refine ⟨h.symm, he, t, rfl, ?_⟩
      rw [cart_to_order_eq_nonempty s uid cid he, hv]

theorem clear_cart_products (s : Store) (cid : Nat) :
    (clear_cart s cid).products = s.products := rfl

theorem get_cart_items_clear_cart (s : Store) (cid : Nat) :
    get_cart_items (clear_cart s cid) cid = [] := by
  simp [get_cart_items, clear_cart, List.filter_filter]

theorem paymentTransition_payment_status (o : Order) (ps : String)
    (ref : Option String) :
    (paymentTransition o ps ref).payment_status = ps := by
  unfold paymentTransition
  by_cases h1 : ps = "paid" <;> by_cases h2 : ps = "failed" <;>
    cases ref with
    | none => simp [h1, h2]
    | some r => by_cases hr : r = "" <;> simp [h1, h2, hr]

theorem paymentTransition_status_paid (o : Order) (ref : Option String) :
    (paymentTransition o "paid" ref).status = "confirmed" := by
  unfold paymentTransition
  cases ref with
  | none => simp
  | some r => by_cases hr : r = "" <;> simp [hr]

theorem paymentTransition_status_failed (o : Order) (ref : Option String) :
    (paymentTransition o "failed" ref).status = "cancelled" := by
  unfold paymentTransition
  cases ref with
  | none => simp
  | some r => by_cases hr : r = "" <;> simp [hr]

theorem paymentTransition_status_other (o : Order) (ps : String)
    (ref : Option String) (h1 : ps ≠ "paid") (h2 : ps ≠ "failed") :
    (paymentTransition o ps ref).status = o.status := by
  unfold paymentTransition
  cases ref with
  | none => simp [h1, h2]
  | some r => by_cases hr : r = "" <;> simp [h1, h2, hr]

theorem paymentTransition_ref_isSome (o : Order) (ps : String)
    (ref : Option String) (h : o.stripe_payment_intent_id.isSome) :
    (paymentTransition o ps ref).stripe_payment_intent_id.isSome := by
  unfold paymentTransition
  by_cases h1 : ps = "paid" <;> by_cases h2 : ps = "failed" <;>
    cases ref with
    | none => simpa [h1, h2] using h
    | some r =>
        by_cases hr : r = "" <;> simp [h1, h2, hr, h]

theorem paymentTransition_paid_idem (o : Order) (ref : Option String) :
    paymentTransition (paymentTransition o "paid" ref) "paid" ref =
      paymentTransition o "paid" ref := by
  unfold paymentTransition
  cases ref with
  | none => simp
  | some r => by_cases hr : r = "" <;> simp [hr]

/-- C10: `create_order` called with an empty item list does not fail: it
persists an Order with status pending, payment status pending, total 0 and
no OrderItems, changing no product stock and no cart; `cart_to_order` on an
empty cart instead raises `Cart is empty` and creates nothing. -/
theorem create_order_empty_vs_cart_empty (s : Store) (uid cid : Nat)
    (hcart : get_cart_items s cid = []) :
    (create_order s uid []).2 = Except.ok s.next_order_id ∧
    (create_order s uid []).1.orders s.next_order_id =
      some { user_id := uid, status := "pending", total_price := 0,
             payment_status := "pending", stripe_payment_intent_id := none } ∧
    (create_order s uid []).1.orderItems = s.orderItems ∧
    (create_order s uid []).1.products = s.products ∧
    (create_order s uid []).1.cartItems = s.cartItems ∧
    cart_to_order s uid cid = (s, Except.error CheckoutError.cartEmpty) := by
  refine ⟨rfl, ?_, rfl, rfl, rfl, ?_⟩
  · show (insertOrder s uid 0).orders s.next_order_id = _
    simp [insertOrder]
  · rw [cart_to_order]
    simp [hcart]

theorem create_order_empty_vs_cart_empty_witness :
    get_cart_items exStore 2 = [] ∧
    cart_to_order exStore 7 2 = (exStore, Except.error CheckoutError.cartEmpty) :=
  ⟨by decide,
   (create_order_empty_vs_cart_empty exStore 7 2 (by decide)).2.2.2.2.2⟩

/-- C5: for an existing order, `update_order_payment_status` persists an
order whose payment status is the new status; `paid` forces fulfillment
status `confirmed`, `failed` forces `cancelled`, any other payment status
leaves the fulfillment status unchanged; and a stored payment reference is
never cleared by a subsequent call. -/
theorem update_order_payment_status_spec (s : Store) (oid : Nat) (o : Order)
    (ps : String) (ref : Option String) (h : s.orders oid = some o) :
    (update_order_payment_status s oid ps ref).2 =
      some (paymentTransition o ps ref) ∧
    (update_order_payment_status s oid ps ref).1.orders oid =
      some (paymentTransition o ps ref) ∧
    (paymentTransition o ps ref).payment_status = ps ∧
    (ps = "paid" → (paymentTransition o ps ref).status = "confirmed") ∧
    (ps = "failed" → (paymentTransition o ps ref).status = "cancelled") ∧
    (ps ≠ "paid" → ps ≠ "failed" →
      (paymentTransition o ps ref).status = o.status) ∧
    (o.stripe_payment_intent_id.isSome →
      (paymentTransition o ps ref).stripe_payment_intent_id.isSome) := by
  refine ⟨?_, ?_, paymentTransition_payment_status o ps ref,
    fun hp => by rw [hp]; exact paymentTransition_status_paid o ref,
    fun hf => by rw [hf]; exact paymentTransition_status_failed o ref,
    fun h1 h2 => paymentTransition_status_other o ps ref h1 h2,
    paymentTransition_ref_isSome o ps ref⟩
  · rw [update_order_payment_status, h]
  · rw [update_order_payment_status, h]
    exact setOrder_orders_self s oid _

theorem update_order_payment_status_spec_witness :
    exStorePriceDrift.orders 1 =
      some { user_id := 7, status := "pending", total_price := 2000,
             payment_status := "pending", stripe_payment_intent_id := none } ∧
    (paymentTransition
      { user_id := 7, status := "pending", total_price := 2000,
        payment_status := "pending", stripe_payment_intent_id := none }
      "paid" (some "cs_1")).payment_status = "paid" :=
  ⟨rfl,
   (update_order_payment_status_spec exStorePriceDrift 1 _ "paid"
     (some "cs_1") rfl).2.2.1⟩

/-- C6: applying `update_order_payment_status(oid, paid, ref)` twice in a
row yields exactly the same final store and return value as applying it
once, and the order's fulfillment status ends up `confirmed`. -/
theorem update_order_payment_status_paid_idem (s : Store) (oid : Nat)
    (o : Order) (ref : Option String) (h : s.orders oid = some o) :
    update_order_payment_status
        (update_order_payment_status s oid "paid" ref).1 oid "paid" ref =
      update_order_payment_status s oid "paid" ref ∧
    (update_order_payment_status s oid "paid" ref).1.orders oid =
      some (paymentTransition o "paid" ref) ∧
    (paymentTransition o "paid" ref).status = "confirmed" := by
  have hu : update_order_payment_status s oid "paid" ref =
      (setOrder s oid (paymentTransition o "paid" ref),
       some (paymentTransition o "paid" ref)) := by
    simp only [update_order_payment_status, h]
  refine ⟨?_, ?_, paymentTransition_status_paid o ref⟩
  · rw [hu]
    simp only [update_order_payment_status, setOrder_orders_self,
      paymentTransition_paid_idem, setOrder_collapse]
  · rw [hu]
    exact setOrder_orders_self s oid _

theorem update_order_payment_status_paid_idem_witness :
    exStore.orders 1 = none ∧
    exStorePriceDrift.orders 1 =
      some { user_id := 7, status := "pending", total_price := 2000,
             payment_status := "pending", stripe_payment_intent_id := none } ∧
    (paymentTransition
      { user_id := 7, status := "pending", total_price := 2000,
        payment_status := "pending", stripe_payment_intent_id := none }
      "paid" (some "cs_2")).status = "confirmed" :=
  ⟨rfl, rfl,
   (update_order_payment_status_paid_idem exStorePriceDrift 1 _
     (some "cs_2") rfl).2.2⟩

/-- C8: `update_product` on an existing product sets exactly the fields
present in the patch and leaves absent fields and the rest of the store
unchanged; on an absent id it returns `None` and changes nothing. -/
theorem update_product_spec (s : Store) (pid : Nat) (p : Product)
    (u : ProductUpdate) (h : s.products pid = some p) :
    (update_product s pid u).2 = some (applyUpdate p u) ∧
    (update_product s pid u).1.products pid = some (applyUpdate p u) ∧
    (∀ v, u.name = some v → (applyUpdate p u).name = v) ∧
    (u.name = none → (applyUpdate p u).name = p.name) ∧
    (∀ v, u.description = some v → (applyUpdate p u).description = v) ∧
    (u.description = none → (applyUpdate p u).description = p.description) ∧
    (∀ v, u.price = some v → (applyUpdate p u).price = v) ∧
    (u.price = none → (applyUpdate p u).price = p.price) ∧
    (∀ v, u.in_stock = some v → (applyUpdate p u).in_stock = v) ∧
    (u.in_stock = none → (applyUpdate p u).in_stock = p.in_stock) ∧
    (∀ v, u.category = some v → (applyUpdate p u).category = v) ∧
    (u.category = none → (applyUpdate p u).category = p.category) ∧
    (∀ v, u.media_url = some v → (applyUpdate p u).media_url = v) ∧
    (u.media_url = none → (applyUpdate p u).media_url = p.media_url) ∧
    (∀ v, u.rating = some v → (applyUpdate p u).rating = v) ∧
    (u.rating = none → (applyUpdate p u).rating = p.rating) ∧
    (∀ v, u.num_reviews = some v → (applyUpdate p u).num_reviews = v) ∧
    (u.num_reviews = none → (applyUpdate p u).num_reviews = p.num_reviews) ∧
    (∀ n, n ≠ pid → (update_product s pid u).1.products n = s.products n) ∧
    (update_product s pid u).1.orders = s.orders ∧
    (update_product s pid u).1.orderItems = s.orderItems ∧
    (update_product s pid u).1.cartItems = s.cartItems ∧
    (∀ pid2, s.products pid2 = none → update_product s pid2 u = (s, none)) := by
  refine ⟨?_, ?_, ?_, ?_, ?_, ?_, ?_, ?_, ?_, ?_, ?_, ?_, ?_, ?_, ?_, ?_,
    ?_, ?_, ?_, ?_, ?_, ?_, ?_⟩
  · rw [update_product, h]
  · rw [update_product, h]
    exact setProduct_products_self s pid _
  all_goals first
    | (intro v hv; simp [applyUpdate, hv])
    | (intro hv; simp [applyUpdate, hv])
    | (intro n hn
       rw [update_product, h]
       exact setProduct_products_ne s pid _ n hn)
    | (rw [update_product, h]; rfl)
    | (intro pid2 h2; rw [update_product, h2])

theorem update_product_spec_witness :
    exStore.products 1 = some productA ∧
    (update_product exStore 1 { price := some 1500 }).2 =
      some { productA with price := 1500 } :=
  ⟨rfl, by
    have := (update_product_spec exStore 1 productA
      { price := some 1500 } rfl).1
    rw [this]
    rfl⟩

theorem insertOrder_orders_self (s : Store) (uid : Nat) (t : Int) :
    (insertOrder s uid t).orders s.next_order_id =
      some { user_id := uid, status := "pending", total_price := t,
             payment_status := "pending", stripe_payment_intent_id := none } := by
  simp [insertOrder]

/-- C1: for a nonempty cart whose items (pairwise distinct products, as the
CartItem uniqueness invariant guarantees) all reference existing products
with stock at least the requested quantity, `cart_to_order` succeeds; the
persisted order carries total Σ (unit price at checkout × quantity) over
the cart's items; the inserted order items snapshot those unit prices; each
referenced product's stock is decremented by exactly the requested
quantity; and the cart is left without items. -/
theorem cart_to_order_correct (s : Store) (uid cid : Nat)
    (hne : get_cart_items s cid ≠ [])
    (hnd : (get_cart_items s cid).Pairwise
      fun a b => a.product_id ≠ b.product_id)
    (hav : ∀ c ∈ get_cart_items s cid, ∃ p, s.products c.product_id = some p ∧
      c.quantity ≤ p.in_stock) :
    (cart_to_order s uid cid).2 = Except.ok s.next_order_id ∧
    (cart_to_order s uid cid).1.orders s.next_order_id =
      some { user_id := uid, status := "pending",
             total_price :=
               itemsTotal s (cartItemsToOrderItems (get_cart_items s cid)),
             payment_status := "pending", stripe_payment_intent_id := none } ∧
    (cart_to_order s uid cid).1.orderItems = s.orderItems ++
      (get_cart_items s cid).map (fun c =>
        { order_id := s.next_order_id, product_id := c.product_id,
          quantity := c.quantity, unit_price := priceOf s c.product_id }) ∧
    (∀ c ∈ get_cart_items s cid, ∀ p, s.products c.product_id = some p →
      (cart_to_order s uid cid).1.products c.product_id =
        some { p with in_stock := p.in_stock - c.quantity }) ∧
    get_cart_items (cart_to_order s uid cid).1 cid = [] := by
  have havail : AllAvailable s (cartItemsToOrderItems (get_cart_items s cid)) := by
    intro it hit
    obtain ⟨c, hc, rfl⟩ := List.mem_map.mp hit
    obtain ⟨p, hp, hq⟩ := hav c hc
    exact ⟨p, hp, not_lt.mpr hq⟩
  have hv := validate_items_ok s _ havail
  have hrun := cart_to_order_eq_nonempty s uid cid hne
  rw [hv] at hrun
  have hnd2 : (cartItemsToOrderItems (get_cart_items s cid)).Pairwise
      fun a b => a.product_id ≠ b.product_id := by
    rw [cartItemsToOrderItems, List.pairwise_map]
    exact hnd
  refine ⟨by rw [hrun], ?_, ?_, ?_, ?_⟩
  · rw [hrun]
    show (apply_items s.next_order_id _ _).orders s.next_order_id = _
    rw [apply_items_orders]
    exact insertOrder_orders_self s uid _
  · rw [hrun]
    show (apply_items s.next_order_id
      (insertOrder s uid _) _).orderItems = _
    rw [apply_items_orderItems]
    · rw [cartItemsToOrderItems, List.map_map]
      rfl
    · intro it hit
      obtain ⟨p, hp, -⟩ := havail it hit
      show (s.products it.product_id).isSome
      rw [hp]; rfl
  · intro c hc p hp
    rw [hrun]
    show (apply_items s.next_order_id (insertOrder s uid _) _).products
      c.product_id = _
    have hmem : ({ product_id := c.product_id, quantity := c.quantity } :
        OrderItemCreate) ∈ cartItemsToOrderItems (get_cart_items s cid) :=
      List.mem_map.mpr ⟨c, hc, rfl⟩
    exact apply_items_stock _ _ _ hnd2 _ hmem p hp
  · rw [hrun]
    exact get_cart_items_clear_cart _ cid

theorem cart_to_order_correct_witness :
    get_cart_items exStore 1 ≠ [] ∧
    itemsTotal exStore (cartItemsToOrderItems (get_cart_items exStore 1)) =
      3000 ∧
    (cart_to_order exStore 7 1).2 = Except.ok 1 ∧
    get_cart_items (cart_to_order exStore 7 1).1 1 = [] := by
  have hc := cart_to_order_correct exStore 7 1 (by decide) (by decide)
    (by
      intro c hc
      have hgc : get_cart_items exStore 1 = [⟨0, 1, 1, 3⟩] := by decide
      rw [hgc, List.mem_singleton] at hc
      subst hc
      exact ⟨productA, rfl, by decide⟩)
  exact ⟨by decide, by decide, hc.1, hc.2.2.2.2⟩

/-- C2: a checkout (either entry point) in which some requested product is
absent or some requested quantity exceeds that product's current stock
raises the corresponding error — carrying the offending product and the
available vs. requested quantities — and persists nothing: the store is
returned unchanged (no order, no order items, no stock change, cart items
untouched). -/
theorem checkout_failure_atomic (s : Store) (uid : Nat) (req : CheckoutReq)
    (h : ∃ it ∈ requestedItems s req, s.products it.product_id = none ∨
      ∃ p, s.products it.product_id = some p ∧ p.in_stock < it.quantity) :
    (checkout s uid req).1 = s ∧
    ∃ e, (checkout s uid req).2 = Except.error e ∧
      ((∃ it ∈ requestedItems s req, s.products it.product_id = none ∧
          e = CheckoutError.productNotFound it.product_id) ∨
       (∃ it ∈ requestedItems s req, ∃ p, s.products it.product_id = some p ∧
          p.in_stock < it.quantity ∧
          e = CheckoutError.insufficientStock p.name p.in_stock it.quantity)) := by
  obtain ⟨e, hv, hcase⟩ := validate_items_error s (requestedItems s req) h
  cases req with
  | explicitItems items =>
      have hv2 : validate_items s items = Except.error e := hv
      refine ⟨?_, e, ?_, hcase⟩
      · show (create_order s uid items).1 = s
        rw [create_order, hv2]
      · show (create_order s uid items).2 = Except.error e
        rw [create_order, hv2]
  | fromCart cid =>
      have he : get_cart_items s cid ≠ [] := by
        intro hgc
        obtain ⟨it, hit, -⟩ := h
        rw [show requestedItems s (CheckoutReq.fromCart cid) =
          cartItemsToOrderItems (get_cart_items s cid) from rfl, hgc] at hit
        simp [cartItemsToOrderItems] at hit
      have hv2 : validate_items s
          (cartItemsToOrderItems (get_cart_items s cid)) = Except.error e := hv
      have hrun := cart_to_order_eq_nonempty s uid cid he
      rw [hv2] at hrun
      exact ⟨by rw [show (checkout s uid (CheckoutReq.fromCart cid)).1 =
          (cart_to_order s uid cid).1 from rfl, hrun],
        e, by rw [show (checkout s uid (CheckoutReq.fromCart cid)).2 =
          (cart_to_order s uid cid).2 from rfl, hrun], hcase⟩

theorem checkout_failure_atomic_witness :
    (((⟨2, 1⟩ : OrderItemCreate) ∈
        requestedItems exStore (CheckoutReq.explicitItems [⟨2, 1⟩])) ∧
      exStore.products 2 = none) ∧
    (checkout exStore 7 (CheckoutReq.explicitItems [⟨2, 1⟩])).1 = exStore := by
  refine ⟨⟨by decide, rfl⟩, ?_⟩
  exact (checkout_failure_atomic exStore 7 (CheckoutReq.explicitItems [⟨2, 1⟩])
    ⟨⟨2, 1⟩, by decide, Or.inl rfl⟩).1

/-- C9: a successful checkout (either entry point) modifies no product field
other than the stock of the requested products — the stock-erased view of
the whole product table is unchanged — and products not referenced by the
request keep their exact rows. -/
theorem checkout_product_frame (s : Store) (uid : Nat) (req : CheckoutReq)
    (oid : Nat) (h : (checkout s uid req).2 = Except.ok oid) :
    (∀ pid, ((checkout s uid req).1.products pid).map eraseStock =
      (s.products pid).map eraseStock) ∧
    (∀ pid, pid ∉ (requestedItems s req).map (fun it => it.product_id) →
      (checkout s uid req).1.products pid = s.products pid) := by
  cases req with
  | explicitItems items =>
      obtain ⟨-, t, -, hst⟩ := create_order_ok_elim s uid oid items h
      constructor
      · intro pid
        show ((create_order s uid items).1.products pid).map eraseStock = _
        rw [hst]
        exact apply_items_eraseStock _ _ _ _
      · intro pid hpid
        show (create_order s uid items).1.products pid = _
        rw [hst]
        exact apply_items_not_mem _ _ _ _ hpid
  | fromCart cid =>
      obtain ⟨-, -, t, -, hst⟩ := cart_to_order_ok_elim s uid cid oid h
      constructor
      · intro pid
        show ((cart_to_order s uid cid).1.products pid).map eraseStock = _
        rw [hst, clear_cart_products]
        exact apply_items_eraseStock _ _ _ _
      · intro pid hpid
        show (cart_to_order s uid cid).1.products pid = _
        rw [hst, clear_cart_products]
        exact apply_items_not_mem _ _ _ _ hpid

theorem checkout_product_frame_witness :
    (checkout exStore 7 (CheckoutReq.fromCart 1)).2 = Except.ok 1 ∧
    ((checkout exStore 7 (CheckoutReq.fromCart 1)).1.products 1).map
      eraseStock = (exStore.products 1).map eraseStock ∧
    (checkout exStore 7 (CheckoutReq.fromCart 1)).1.products 2 =
      exStore.products 2 := by
  have hf := checkout_product_frame exStore 7 (CheckoutReq.fromCart 1) 1 rfl
  exact ⟨rfl, hf.1 1, hf.2 2 (by decide)⟩

theorem find?_append_none {α : Type} (p : α → Bool) (l1 l2 : List α)
    (h : l1.find? p = none) : (l1 ++ l2).find? p = l2.find? p := by
  induction l1 with
  | nil => rfl
  | cons a l ih =>
      cases hpa : p a with
      | true =>
          rw [List.find?_cons_of_pos _ hpa] at h
          exact absurd h (by simp)
      | false =>
          rw [List.find?_cons_of_neg _ (by simp [hpa])] at h
          rw [List.cons_append, List.find?_cons_of_neg _ (by simp [hpa])]
          exact ih h

/-- `add_to_cart` preserves the at-most-one-row-per-(cart, product)
invariant: the increment branch only rewrites quantities, and the insert
branch only fires when no row for the pair exists. -/
theorem add_to_cart_cartUnique (s : Store) (cid : Nat) (item : CartItemCreate)
    (h : CartUnique s) : CartUnique (add_to_cart s cid item).1 := by
  cases hsp : s.products item.product_id with
  | none =>
      have hrw : (add_to_cart s cid item).1 = s := by
        simp only [add_to_cart, hsp]
      rw [hrw]; exact h
  | some p =>
      cases hf : s.cartItems.find? (fun c =>
          c.cart_id = cid && c.product_id = item.product_id) with
      | some ex =>
          have hci : (add_to_cart s cid item).1.cartItems =
              s.cartItems.map (fun c =>
                if c.id = ex.id then
                  { c with quantity := c.quantity + item.quantity }
                else c) := by
            simp only [add_to_cart, hsp, hf]
          unfold CartUnique
          rw [hci, List.pairwise_map]
          refine List.Pairwise.imp ?_ h
          intro a b hab hcontra
          apply hab
          by_cases ha : a.id = ex.id <;> by_cases hb : b.id = ex.id <;>
            simpa [ha, hb] using hcontra
      | none =>
          have hci : (add_to_cart s cid item).1.cartItems =
              s.cartItems ++
                [{ id := s.next_cart_item_id, cart_id := cid,
                   product_id := item.product_id,
                   quantity := item.quantity }] := by
            simp only [add_to_cart, hsp, hf]
          unfold CartUnique
          rw [hci, List.pairwise_append]
          refine ⟨h, List.pairwise_singleton _ _, ?_⟩
          intro a ha b hb
          rw [List.mem_singleton] at hb
          subst hb
          have hnp := List.find?_eq_none.mp hf a ha
          simpa using hnp

/-- C7: after any `add_to_cart` there is still at most one CartItem per
(cart, product) pair, and two `add_to_cart` calls for the same product on an
empty cart leave exactly one CartItem whose quantity is the sum of the two
requested quantities. -/
theorem add_to_cart_unique (s : Store) (cid pid : Nat) (q1 q2 : Int)
    (p : Product) (hsp : s.products pid = some p)
    (hempty : ∀ c ∈ s.cartItems, c.cart_id ≠ cid) :
    (∀ s2 cid2 item, CartUnique s2 →
      CartUnique (add_to_cart s2 cid2 item).1) ∧
    get_cart_items
        (add_to_cart (add_to_cart s cid ⟨pid, q1⟩).1 cid ⟨pid, q2⟩).1 cid =
      [{ id := s.next_cart_item_id, cart_id := cid, product_id := pid,
         quantity := q1 + q2 }] := by
  refine ⟨fun s2 cid2 item => add_to_cart_cartUnique s2 cid2 item, ?_⟩
  have hf1 : s.cartItems.find? (fun c =>
      c.cart_id = cid && c.product_id = pid) = none := by
    apply List.find?_eq_none.mpr
    intro c hc
    simp [hempty c hc]
  have h1 : (add_to_cart s cid ⟨pid, q1⟩).1 =
      { s with cartItems := s.cartItems ++
                 [{ id := s.next_cart_item_id, cart_id := cid,
                    product_id := pid, quantity := q1 }],
               next_cart_item_id := s.next_cart_item_id + 1 } := by
    simp only [add_to_cart, hsp, hf1]
  rw [h1]
  have hf2 : (s.cartItems ++
      [{ id := s.next_cart_item_id, cart_id := cid,
         product_id := pid, quantity := q1 : CartItem }]).find? (fun c =>
      c.cart_id = cid && c.product_id = pid) =
      some { id := s.next_cart_item_id, cart_id := cid,
             product_id := pid, quantity := q1 } := by
    rw [find?_append_none _ _ _ hf1]
    rw [List.find?_cons_of_pos _ (by simp)]
  have h2 : (add_to_cart
      { s with cartItems := s.cartItems ++
                 [{ id := s.next_cart_item_id, cart_id := cid,
                    product_id := pid, quantity := q1 }],
               next_cart_item_id := s.next_cart_item_id + 1 }
      cid ⟨pid, q2⟩).1.cartItems =
      (s.cartItems ++
        ([{ id := s.next_cart_item_id, cart_id := cid,
            product_id := pid, quantity := q1 }] : List CartItem)).map (fun c =>
        if c.id = s.next_cart_item_id then
          { c with quantity := c.quantity + q2 }
        else c) := by
    simp only [add_to_cart, hsp, hf2]
  rw [get_cart_items, h2, List.map_append, List.filter_append]
  have hnil : ((s.cartItems.map (fun c =>
      if c.id = s.next_cart_item_id then
        { c with quantity := c.quantity + q2 }
      else c)).filter (fun c => c.cart_id = cid)) = [] := by
    rw [List.filter_eq_nil_iff]
    intro c hc
    obtain ⟨c0, hc0, rfl⟩ := List.mem_map.mp hc
    by_cases h0 : c0.id = s.next_cart_item_id <;>
      simp [h0, hempty c0 hc0]
  rw [hnil]
  simp [add_comm]

theorem add_to_cart_unique_witness :
    exStore.products 1 = some productA ∧
    (∀ c ∈ exStore.cartItems, c.cart_id ≠ 2) ∧
    get_cart_items
        (add_to_cart (add_to_cart exStore 2 ⟨1, 4⟩).1 2 ⟨1, 5⟩).1 2 =
      [{ id := 1, cart_id := 2, product_id := 1, quantity := 9 }] := by
  refine ⟨rfl, by decide, ?_⟩
  exact (add_to_cart_unique exStore 2 1 4 5 productA rfl (by decide)).2

/-- C3 counterexample, witnessing both violations the amendment guards
against.  Starting from the reachable state obtained by creating product
"A" (stock 5) in an empty store: (1) the admin update setting `in_stock` to
−1 is accepted by `update_product` (the `ProductUpdate` schema carries no
lower bound), leaving a negative stock count; (2) the explicit checkout
request `[(product 1, 3), (product 1, 3)]` validates both lines against the
same un-decremented stock of 5 and then decrements twice, driving the stock
to −1.  The claimed invariant over every operation fails both ways. -/
theorem stock_nonneg_counterexample :
    ¬ StockNonneg (step (create_product emptyStore 1 productACreate)
      (Op.opUpdateProduct 1 { in_stock := some (-1) })) ∧
    ¬ StockNonneg (step (create_product emptyStore 1 productACreate)
      (Op.opCheckout 7 (CheckoutReq.explicitItems [⟨1, 3⟩, ⟨1, 3⟩]))) := by
  constructor
  · intro hinv
    exact absurd (hinv 1 { productA with in_stock := -1 } (by decide))
      (by decide)
  · intro hinv
    exact absurd (hinv 1 { productA with in_stock := -1 } (by decide))
      (by decide)

/-- A failed checkout leaves the session exactly as it was. -/
theorem checkout_error_store (s : Store) (uid : Nat) (req : CheckoutReq)
    (e : CheckoutError) (h : (checkout s uid req).2 = Except.error e) :
    (checkout s uid req).1 = s := by
  cases req with
  | explicitItems items =>
      cases hv : validate_items s items with
      | error e2 =>
          show (create_order s uid items).1 = s
          rw [create_order, hv]
      | ok t =>
          have h2 : (checkout s uid (CheckoutReq.explicitItems items)).2 =
              Except.ok s.next_order_id := by
            show (create_order s uid items).2 = _
            rw [create_order, hv]
          rw [h2] at h
          exact absurd h (by simp)
  | fromCart cid =>
      by_cases he : get_cart_items s cid = []
      · show (cart_to_order s uid cid).1 = s
        rw [cart_to_order]
        simp [he]
      · cases hv : validate_items s
            (cartItemsToOrderItems (get_cart_items s cid)) with
        | error e2 =>
            show (cart_to_order s uid cid).1 = s
            rw [cart_to_order_eq_nonempty s uid cid he, hv]
        | ok t =>
            have h2 : (checkout s uid (CheckoutReq.fromCart cid)).2 =
                Except.ok s.next_order_id := by
              show (cart_to_order s uid cid).2 = _
              rw [cart_to_order_eq_nonempty s uid cid he, hv]
            rw [h2] at h
            exact absurd h (by simp)

theorem add_to_cart_products (s : Store) (cid : Nat) (item : CartItemCreate) :
    (add_to_cart s cid item).1.products = s.products := by
  cases hsp : s.products item.product_id with
  | none => simp only [add_to_cart, hsp]
  | some p =>
      cases hf : s.cartItems.find? (fun c =>
          c.cart_id = cid && c.product_id = item.product_id) with
      | some ex => simp only [add_to_cart, hsp, hf]
      | none => simp only [add_to_cart, hsp, hf]

theorem update_cart_item_products (s : Store) (ciid : Nat) (q : Int) :
    (update_cart_item s ciid q).1.products = s.products := by
  cases hf : s.cartItems.find? (fun c => c.id = ciid) with
  | some ex => simp only [update_cart_item, hf]
  | none => simp only [update_cart_item, hf]

theorem remove_from_cart_products (s : Store) (ciid : Nat) :
    (remove_from_cart s ciid).1.products = s.products := by
  cases hf : s.cartItems.find? (fun c => c.id = ciid) with
  | some ex => simp only [remove_from_cart, hf]
  | none => simp only [remove_from_cart, hf]

theorem update_order_payment_status_products (s : Store) (oid : Nat)
    (ps : String) (ref : Option String) :
    (update_order_payment_status s oid ps ref).1.products = s.products := by
  cases ho : s.orders oid with
  | some o => simp only [update_order_payment_status, ho]; rfl
  | none => simp only [update_order_payment_status, ho]

/-- The requested product ids of a cart are pairwise distinct whenever the
cart rows satisfy the uniqueness invariant. -/
theorem cart_request_nodup (s : Store) (cid : Nat) (h : CartUnique s) :
    (cartItemsToOrderItems (get_cart_items s cid)).Pairwise
      fun a b => a.product_id ≠ b.product_id := by
  rw [cartItemsToOrderItems, List.pairwise_map]
  have hsub : (get_cart_items s cid).Pairwise fun a b =>
      ¬(a.cart_id = b.cart_id ∧ a.product_id = b.product_id) :=
    List.Pairwise.sublist (List.filter_sublist _) h
  refine List.Pairwise.imp_of_mem ?_ hsub
  intro a b ha hb hr he
  apply hr
  have ha2 := of_decide_eq_true (List.mem_filter.mp ha).2
  have hb2 := of_decide_eq_true (List.mem_filter.mp hb).2
  exact ⟨ha2.trans hb2.symm, he⟩

/-- StockNonneg is preserved by a successful `apply_items` run over
available, pairwise-distinct items. -/
theorem apply_items_stockNonneg (oid : Nat) (s s1 : Store)
    (items : List OrderItemCreate) (hprod : s1.products = s.products)
    (hstock : StockNonneg s)
    (havail : AllAvailable s items)
    (hnd : items.Pairwise fun a b => a.product_id ≠ b.product_id) :
    StockNonneg (apply_items oid s1 items) := by
  intro pid2 p2 hp2
  by_cases hmem : pid2 ∈ items.map fun it => it.product_id
  · obtain ⟨it, hit, hpid⟩ := List.mem_map.mp hmem
    subst hpid
    obtain ⟨p, hp, hq⟩ := havail it hit
    have hp1 : s1.products it.product_id = some p := by rw [hprod]; exact hp
    have hfin := apply_items_stock oid s1 items hnd it hit p hp1
    rw [hfin] at hp2
    have hp2' := Option.some.inj hp2
    rw [← hp2']
    have : it.quantity ≤ p.in_stock := not_lt.mp hq
    simpa using sub_nonneg.mpr this
  · rw [apply_items_not_mem _ _ _ _ hmem, hprod] at hp2
    exact hstock pid2 p2 hp2

/-- C3 (amended): an operation preserves the nonnegative-stock and
cart-uniqueness invariants whenever its documented side conditions hold —
product create/update must supply a nonnegative stock value and an explicit
order request must not repeat a product id (a cart checkout gets
distinctness from the cart invariant itself).  Without those side
conditions stock can go negative, as the counterexample shows. -/
theorem step_preserves_invariants (s : Store) (op : Op)
    (hstock : StockNonneg s) (hcart : CartUnique s) (hsafe : OpSafe op) :
    StockNonneg (step s op) ∧ CartUnique (step s op) := by
  cases op with
  | opCreateProduct pid inp =>
      refine ⟨?_, hcart⟩
      intro pid2 p2 hp2
      have hp2' : (if pid2 = pid then
          some { name := inp.name, description := inp.description,
                 price := inp.price, in_stock := inp.in_stock,
                 category := inp.category, media_url := inp.media_url,
                 rating := none, num_reviews := none : Product }
        else s.products pid2) = some p2 := hp2
      by_cases h : pid2 = pid
      · rw [if_pos h] at hp2'
        have := Option.some.inj hp2'
        rw [← this]
        exact hsafe
      · rw [if_neg h] at hp2'
        exact hstock pid2 p2 hp2'
  | opUpdateProduct pid u =>
      cases hsp : s.products pid with
      | none =>
          have hrw : step s (Op.opUpdateProduct pid u) = s := by
            simp only [step, update_product, hsp]
          rw [hrw]
          exact ⟨hstock, hcart⟩
      | some p =>
          have hrw : step s (Op.opUpdateProduct pid u) =
              setProduct s pid (applyUpdate p u) := by
            simp only [step, update_product, hsp]
          rw [hrw]
          refine ⟨?_, hcart⟩
          intro pid2 p2 hp2
          by_cases h : pid2 = pid
          · subst h
            rw [setProduct_products_self] at hp2
            have := Option.some.inj hp2
            rw [← this]
            cases hin : u.in_stock with
            | none =>
                have he : (applyUpdate p u).in_stock = p.in_stock := by
                  simp [applyUpdate, hin]
                rw [he]
                exact hstock pid2 p hsp
            | some v =>
                have he : (applyUpdate p u).in_stock = v := by
                  simp [applyUpdate, hin]
                rw [he]
                exact hsafe v hin
          · rw [setProduct_products_ne _ _ _ _ h] at hp2
            exact hstock pid2 p2 hp2
  | opDeleteProduct pid =>
      cases hsp : s.products pid with
      | none =>
          have hrw : step s (Op.opDeleteProduct pid) = s := by
            simp only [step, delete_product, hsp]
          rw [hrw]
          exact ⟨hstock, hcart⟩
      | some p =>
          have hrw : step s (Op.opDeleteProduct pid) =
              { s with products := fun n =>
                  if n = pid then none else s.products n } := by
            simp only [step, delete_product, hsp]
          rw [hrw]
          refine ⟨?_, hcart⟩
          intro pid2 p2 hp2
          have hp2' : (if pid2 = pid then none else s.products pid2) =
              some p2 := hp2
          by_cases h : pid2 = pid
          · rw [if_pos h] at hp2'
            exact absurd hp2' (by simp)
          · rw [if_neg h] at hp2'
            exact hstock pid2 p2 hp2'
  | opCheckout uid req =>
      cases hres : (checkout s uid req).2 with
      | error e =>
          have hrw : (checkout s uid req).1 = s :=
            checkout_error_store s uid req e hres
          show StockNonneg (checkout s uid req).1 ∧
            CartUnique (checkout s uid req).1
          rw [hrw]
          exact ⟨hstock, hcart⟩
      | ok oid =>
          cases req with
          | explicitItems items =>
              obtain ⟨-, t, hv, hst⟩ := create_order_ok_elim s uid oid items hres
              have havail := validate_items_avail s items t hv
              have hstep : step s (Op.opCheckout uid
                  (CheckoutReq.explicitItems items)) =
                  apply_items s.next_order_id (insertOrder s uid t) items := hst
              rw [hstep]
              constructor
              · exact apply_items_stockNonneg _ _ _ _ rfl hstock havail hsafe
              · show (apply_items s.next_order_id
                  (insertOrder s uid t) items).cartItems.Pairwise _
                rw [apply_items_cartItems]
                exact hcart
          | fromCart cid =>
              obtain ⟨-, hne, t, hv, hst⟩ := cart_to_order_ok_elim s uid cid oid hres
              have havail := validate_items_avail s _ t hv
              have hnd := cart_request_nodup s cid hcart
              have hstep : step s (Op.opCheckout uid (CheckoutReq.fromCart cid)) =
                  clear_cart (apply_items s.next_order_id (insertOrder s uid t)
                    (cartItemsToOrderItems (get_cart_items s cid))) cid := hst
              rw [hstep]
              constructor
              · intro pid2 p2 hp2
                rw [show (clear_cart (apply_items s.next_order_id
                    (insertOrder s uid t)
                    (cartItemsToOrderItems (get_cart_items s cid))) cid).products =
                  (apply_items s.next_order_id (insertOrder s uid t)
                    (cartItemsToOrderItems (get_cart_items s cid))).products
                  from rfl] at hp2
                exact apply_items_stockNonneg s.next_order_id s
                  (insertOrder s uid t) _ rfl hstock havail hnd pid2 p2 hp2
              · show ((apply_items s.next_order_id (insertOrder s uid t)
                  (cartItemsToOrderItems (get_cart_items s cid))).cartItems.filter
                    _).Pairwise _
                refine List.Pairwise.sublist (List.filter_sublist _) ?_
                rw [apply_items_cartItems]
                exact hcart
  | opAddToCart cid item =>
      constructor
      · intro pid2 p2 hp2
        rw [show (step s (Op.opAddToCart cid item)).products = s.products from
          add_to_cart_products s cid item] at hp2
        exact hstock pid2 p2 hp2
      · exact add_to_cart_cartUnique s cid item hcart
  | opUpdateCartItem ciid q =>
      constructor
      · intro pid2 p2 hp2
        rw [show (step s (Op.opUpdateCartItem ciid q)).products = s.products
          from update_cart_item_products s ciid q] at hp2
        exact hstock pid2 p2 hp2
      · cases hf : s.cartItems.find? (fun c => c.id = ciid) with
        | none =>
            have hrw : step s (Op.opUpdateCartItem ciid q) = s := by
              simp only [step, update_cart_item, hf]
            rw [hrw]
            exact hcart
        | some ex =>
            have hci : (step s (Op.opUpdateCartItem ciid q)).cartItems =
                s.cartItems.map (fun c =>
                  if c.id = ciid then { c with quantity := q } else c) := by
              simp only [step, update_cart_item, hf]
            show (step s (Op.opUpdateCartItem ciid q)).cartItems.Pairwise _
            rw [hci, List.pairwise_map]
            refine List.Pairwise.imp ?_ hcart
            intro a b hab hcontra
            apply hab
            by_cases ha : a.id = ciid <;> by_cases hb : b.id = ciid <;>
              simpa [ha, hb] using hcontra
  | opRemoveFromCart ciid =>
      constructor
      · intro pid2 p2 hp2
        rw [show (step s (Op.opRemoveFromCart ciid)).products = s.products
          from remove_from_cart_products s ciid] at hp2
        exact hstock pid2 p2 hp2
      · cases hf : s.cartItems.find? (fun c => c.id = ciid) with
        | none =>
            have hrw : step s (Op.opRemoveFromCart ciid) = s := by
              simp only [step, remove_from_cart, hf]
            rw [hrw]
            exact hcart
        | some ex =>
            have hci : (step s (Op.opRemoveFromCart ciid)).cartItems =
                s.cartItems.filter (fun c => !(c.id = ciid)) := by
              simp only [step, remove_from_cart, hf]
            show (step s (Op.opRemoveFromCart ciid)).cartItems.Pairwise _
            rw [hci]
            exact List.Pairwise.sublist (List.filter_sublist _) hcart
  | opClearCart cid =>
      refine ⟨fun pid2 p2 hp2 => hstock pid2 p2 hp2, ?_⟩
      show (s.cartItems.filter _).Pairwise _
      exact List.Pairwise.sublist (List.filter_sublist _) hcart
  | opSetPaymentStatus oid ps ref =>
      constructor
      · intro pid2 p2 hp2
        rw [show (step s (Op.opSetPaymentStatus oid ps ref)).products =
          s.products from update_order_payment_status_products s oid ps ref]
          at hp2
        exact hstock pid2 p2 hp2
      · cases ho : s.orders oid with
        | none =>
            have hrw : step s (Op.opSetPaymentStatus oid ps ref) = s := by
              simp only [step, update_order_payment_status, ho]
            rw [hrw]
            exact hcart
        | some o =>
            have hci : (step s (Op.opSetPaymentStatus oid ps ref)).cartItems =
                s.cartItems := by
              simp only [step, update_order_payment_status, ho]
              rfl
            show (step s (Op.opSetPaymentStatus oid ps ref)).cartItems.Pairwise _
            rw [hci]
            exact hcart

theorem step_preserves_invariants_witness :
    StockNonneg exStore ∧ CartUnique exStore ∧
    OpSafe (Op.opCheckout 7 (CheckoutReq.fromCart 1)) ∧
    StockNonneg (step exStore (Op.opCheckout 7 (CheckoutReq.fromCart 1))) := by
  have hstock : StockNonneg exStore := by
    intro pid p hp
    by_cases h1 : pid = 1
    · subst h1
      have hp' : some productA = some p := hp
      rw [← Option.some.inj hp']
      decide
    · have hp' : (if pid = 1 then some productA else none) = some p := hp
      rw [if_neg h1] at hp'
      exact absurd hp' (by simp)
  have hcart : CartUnique exStore := by
    have : exStore.cartItems = [⟨0, 1, 1, 3⟩] := rfl
    rw [CartUnique, this]
    exact List.pairwise_singleton _ _
  exact ⟨hstock, hcart, trivial,
    (step_preserves_invariants exStore (Op.opCheckout 7 (CheckoutReq.fromCart 1))
      hstock hcart trivial).1⟩

/-- C4 counterexample: on `exStorePriceDrift`, order 1's only line item was
snapshotted at unit price 1000 (cents), yet the session builder emits a line
item with unit amount 1500 — derived from the product's current catalog
price — so the claim's snapshot clause is false; order 2, which does have an
OrderItem, is rejected with the no-items error because its product was
deleted, so the one-line-item-per-OrderItem and EmptyOrder clauses are false
as well; and order 3's product, priced 19.99 (1999 cents, matching its
snapshot), is emitted with unit amount 1998 — the float round trip
truncates — so even "converted to integer minor-currency-units" does not
hold of either the snapshotted or the current price. -/
theorem create_checkout_session_counterexample :
    create_checkout_session exStorePriceDrift 7 1 =
      Except.ok [{ name := "A", description := "", unit_amount := 1500,
                   quantity := 2 }] ∧
    get_order_items exStorePriceDrift 1 =
      [{ order_id := 1, product_id := 1, quantity := 2, unit_price := 1000 }] ∧
    ¬ (1500 : Int) = 1000 ∧
    get_order_items exStorePriceDrift 2 =
      [{ order_id := 2, product_id := 99, quantity := 1, unit_price := 1000 }] ∧
    create_checkout_session exStorePriceDrift 7 2 =
      Except.error SessionError.noItems ∧
    get_order_items exStorePriceDrift 3 =
      [{ order_id := 3, product_id := 3, quantity := 1, unit_price := 1999 }] ∧
    create_checkout_session exStorePriceDrift 7 3 =
      Except.ok [{ name := "B", description := "", unit_amount := 1998,
                   quantity := 1 }] ∧
    ¬ (1998 : Int) = 1999 :=
  ⟨rfl, by decide, by decide, by decide, rfl, by decide, rfl, by decide⟩

/-- C4 (amended): for an order fetched by its owner, the session builder
fails with Conflict when the order is already paid; otherwise it builds one
line item per OrderItem **whose referenced product still exists** — with
`int(float(price) * 100)` of the product's **current** catalog price as the
unit amount (not the snapshotted `unit_price`, and through a float round
trip that can lose a cent: 19.99 gives 1998) and the OrderItem's quantity —
and fails with the no-items error exactly when no such line item could be
built. -/
theorem create_checkout_session_spec (s : Store) (uid oid : Nat) (o : Order)
    (h : s.orders oid = some o) (hown : o.user_id = uid) :
    (o.payment_status = "paid" →
      create_checkout_session s uid oid =
        Except.error SessionError.alreadyPaid) ∧
    (o.payment_status ≠ "paid" → build_line_items s oid = [] →
      create_checkout_session s uid oid = Except.error SessionError.noItems) ∧
    (o.payment_status ≠ "paid" → build_line_items s oid ≠ [] →
      create_checkout_session s uid oid =
        Except.ok (build_line_items s oid)) ∧
    build_line_items s oid = (get_order_items s oid).filterMap (fun it =>
      match s.products it.product_id with
      | none => none
      | some p => some
          { name := p.name, description := p.description.getD "",
            unit_amount := pyCents p.price, quantity := it.quantity }) := by
  have hfm : ∀ l : List OrderItem,
      l.foldr (fun item acc =>
        match s.products item.product_id with
        | none => acc
        | some p =>
            ({ name := p.name, description := p.description.getD "",
               unit_amount := pyCents p.price,
               quantity := item.quantity : StripeLineItem }) :: acc) [] =
      l.filterMap (fun it =>
        match s.products it.product_id with
        | none => none
        | some p => some
            { name := p.name, description := p.description.getD "",
              unit_amount := pyCents p.price, quantity := it.quantity }) := by
    intro l
    induction l with
    | nil => rfl
    | cons hd tl ih =>
        cases hsp : s.products hd.product_id with
        | none => simp [List.filterMap_cons, hsp, ih]
        | some p => simp [List.filterMap_cons, hsp, ih]
  have hnotown : ¬ (o.user_id ≠ uid) := by simp [hown]
  refine ⟨?_, ?_, ?_, hfm (get_order_items s oid)⟩
  · intro hpaid
    simp only [create_checkout_session, h]
    rw [if_neg hnotown, if_pos hpaid]
  · intro hpaid hempty
    simp only [create_checkout_session, h]
    rw [if_neg hnotown, if_neg hpaid]
    simp [hempty]
  · intro hpaid hne
    simp only [create_checkout_session, h]
    rw [if_neg hnotown, if_neg hpaid]
    have hb : (build_line_items s oid).isEmpty = false := by
      cases hb2 : build_line_items s oid with
      | nil => exact absurd hb2 hne
      | cons a l => rfl
    simp [hb]

theorem create_checkout_session_spec_witness :
    exStorePriceDrift.orders 1 =
      some { user_id := 7, status := "pending", total_price := 2000,
             payment_status := "pending", stripe_payment_intent_id := none } ∧
    create_checkout_session exStorePriceDrift 7 1 =
      Except.ok (build_line_items exStorePriceDrift 1) := by
  refine ⟨rfl, ?_⟩
  exact (create_checkout_session_spec exStorePriceDrift 7 1 _ rfl rfl).2.2.1
    (by decide) (by decide)

end Shop
